import Mathlib

/-!
Verification of the biometric re-authentication session engine
(src/src/screens/LoginScreen.tsx, BiometricScreen component, plus the
HomeScreen app-state handler in src/unnamed/part_000).

The embedding translates the component state, the persisted AsyncStorage
keys, and the event handlers of the source into pure Lean functions.
Persisted values that the source stores as strings (counts, the JSON
lockout record, the literal true/false flags) are modelled as parsed
values: Option Nat, Option LockoutInfo, Option Bool.  Timers are
modelled by armed flags; a timer firing is a separate step function
applied to the state, as the callbacks are in the source.
-/

namespace Biometric

/-- SECURITY_CONFIG.MAX_FAILED_ATTEMPTS from the active constant block of
LoginScreen.tsx. -/
def MAX_FAILED_ATTEMPTS : Nat := 3

/-- SECURITY_CONFIG.LOCKOUT_DURATION in milliseconds (one minute). -/
def LOCKOUT_DURATION : Nat := 60000

/-- SECURITY_CONFIG.SESSION_TIMEOUT in milliseconds (one minute). -/
def SESSION_TIMEOUT : Nat := 60000

/-- SECURITY_CONFIG.BIOMETRIC_TIMEOUT in milliseconds (one minute). -/
def BIOMETRIC_TIMEOUT : Nat := 60000

/-- The JSON object persisted under the biometricLockout key:
endTime, attempts, timestamp, as written by handleFailedAttempt. -/
structure LockoutInfo where
  endTime : Nat
  attempts : Nat
  timestamp : Nat
deriving DecidableEq

/-- The AsyncStorage keys the biometric flow reads and writes.  Counts and
timestamps are stored parsed; the flags isLoggedIn and biometricEnabled,
stored as the strings true/false in the source, are stored as Bool; the
securityToken and the two security log entries are reduced to the
timestamp they embed. -/
structure Store where
  failedBiometricAttempts : Option Nat
  biometricLockout : Option LockoutInfo
  lastBiometricAuth : Option Nat
  isLoggedIn : Option Bool
  securityToken : Option Nat
  biometricEnabled : Option Bool
  emergencyAccessLog : Option Nat
  lastSecurityEvent : Option Nat
deriving DecidableEq

/-- A store with every key absent. -/
def emptyStore : Store :=
  { failedBiometricAttempts := none
    biometricLockout := none
    lastBiometricAuth := none
    isLoggedIn := none
    securityToken := none
    biometricEnabled := none
    emergencyAccessLog := none
    lastSecurityEvent := none }

/-- The distinct Alert dialogs the BiometricScreen component can show.
authFailed carries the remaining-attempts number interpolated into the
message. -/
inductive AlertKind where
  | lockedOut
  | authFailed (remaining : Nat)
  | sessionExpiredAlert
  | authTimeout
  | notEnrolled
  | notAvailable
  | osLockout
deriving DecidableEq

/-- The three screens navigation.replace can land on. -/
inductive Screen where
  | biometric
  | home
  | login
deriving DecidableEq

/-- Engine phases read off the component state (the source keeps no
explicit phase variable). -/
inductive EnginePhase where
  | ready
  | authenticating
  | lockedOut
deriving DecidableEq

/-- The BiometricScreen component state together with the persistent
store, the three timer refs (as armed flags), the screen currently
shown, and the most recent alert. -/
structure BState where
  authAttempts : Nat
  isAuthenticating : Bool
  showFallbackOptions : Bool
  isLockedOut : Bool
  lockoutEndTime : Nat
  sessionExpired : Bool
  biometricAvailable : Bool
  lockoutTimerArmed : Bool
  sessionTimerArmed : Bool
  biometricTimeoutArmed : Bool
  appStateBackground : Bool
  store : Store
  nav : Screen
  alert : Option AlertKind
deriving DecidableEq

/-- The component state right after mount, before any event. -/
def freshState : BState :=
  { authAttempts := 0
    isAuthenticating := false
    showFallbackOptions := false
    isLockedOut := false
    lockoutEndTime := 0
    sessionExpired := false
    biometricAvailable := true
    lockoutTimerArmed := false
    sessionTimerArmed := false
    biometricTimeoutArmed := false
    appStateBackground := false
    store := emptyStore
    nav := Screen.biometric
    alert := none }

/-- Phase read off the component flags: a lockout dominates, then an
in-flight authentication, otherwise the screen is ready. -/
def phase (s : BState) : EnginePhase :=
  if s.isLockedOut then EnginePhase.lockedOut
  else if s.isAuthenticating then EnginePhase.authenticating
  else EnginePhase.ready

/-- Remaining attempts as rendered by the component:
MAX_FAILED_ATTEMPTS - authAttempts (truncated at zero by Nat
subtraction, matching the max(0, _) policy). -/
def remainingAttempts (s : BState) : Nat :=
  MAX_FAILED_ATTEMPTS - s.authAttempts

/-- The password fallback is on offer: either one of the probe-failure
alerts (each of which carries a Use Password button) is showing, or the
showFallbackOptions flag that reveals the Use Password Instead button is
set. -/
def fallbackRequested (s : BState) : Bool :=
  match s.alert with
  | some AlertKind.notEnrolled => true
  | some AlertKind.notAvailable => true
  | some AlertKind.osLockout => true
  | _ => s.showFallbackOptions

/-- Render condition of the Emergency Access button:
authAttempts >= 2 and not locked out. -/
def emergencyAccessOffered (s : BState) : Bool :=
  decide (2 ≤ s.authAttempts) && !s.isLockedOut

/-- clearTimers: cancels the lockout, session and biometric timers. -/
def clearTimers (s : BState) : BState :=
  { s with lockoutTimerArmed := false
           sessionTimerArmed := false
           biometricTimeoutArmed := false }

/-- handleAppBackground: removes the lastBiometricAuth key and clears all
timers; no other field is touched. -/
def handleAppBackground (s : BState) : BState :=
  clearTimers { s with store := { s.store with lastBiometricAuth := none } }

/-- HomeScreen handleAppStateChange on a background or inactive
transition (src/unnamed/part_000): only the remembered app state
changes; the store, and in particular lastBiometricAuth, is untouched
(the screen acts only on the return to active, with a 30 second grace). -/
def homeAppBackground (s : BState) : BState :=
  { s with appStateBackground := true }

/-- Dispatch of the Backgrounded or Inactive lifecycle signal to
whichever screen is mounted: the BiometricScreen handler clears the
session; the HomeScreen handler does not; the LoginScreen has no
app-state listener. -/
def appBackground (s : BState) : BState :=
  match s.nav with
  | Screen.biometric => handleAppBackground s
  | Screen.home => homeAppBackground s
  | Screen.login => s

/-- startSessionTimer: re-arms the session timer (clearing a previous
one first, so at most one is pending). -/
def startSessionTimer (s : BState) : BState :=
  { s with sessionTimerArmed := true }

/-- The session timer callback: sets the sessionExpired flag and runs
handleSessionExpired, which shows the Session Expired alert.  Nothing
else changes; no store key is written. -/
def sessionTimerFire (s : BState) : BState :=
  { s with sessionTimerArmed := false
           sessionExpired := true
           alert := some AlertKind.sessionExpiredAlert }

/-- checkLockoutStatus(now): reads the biometricLockout and
failedBiometricAttempts keys (both read up front, before any clearing);
a still-active record sets the locked-out state from the record and
re-arms the lockout timer; an expired record is removed together with
the failed count, after which the failedAttempts value read at the top
is still consulted and, when present, written into authAttempts. -/
def checkLockoutStatus (now : Nat) (s : BState) : BState :=
  let lockoutData := s.store.biometricLockout
  let failedAttempts := s.store.failedBiometricAttempts
  match lockoutData with
  | some info =>
      if now < info.endTime then
        { s with isLockedOut := true
                 lockoutEndTime := info.endTime
                 authAttempts := info.attempts
                 lockoutTimerArmed := true }
      else
        let s1 := { s with store := { s.store with biometricLockout := none
                                                   failedBiometricAttempts := none } }
        match failedAttempts with
        | some n => { s1 with authAttempts := n }
        | none => s1
  | none =>
      match failedAttempts with
      | some n => { s with authAttempts := n }
      | none => s

/-- The lockout timer callback: resets the locked-out state and the
attempt count and removes both persisted ledger keys. -/
def lockoutTimerFire (s : BState) : BState :=
  { s with lockoutTimerArmed := false
           isLockedOut := false
           lockoutEndTime := 0
           authAttempts := 0
           store := { s.store with biometricLockout := none
                                   failedBiometricAttempts := none } }

/-- handleFailedAttempt(now): increments the attempt count, persists it,
and when the post-increment count reaches MAX_FAILED_ATTEMPTS writes a
lockout record ending at now + LOCKOUT_DURATION, marks the state locked
out, arms the lockout timer, and shows the locked-out alert.  Returns
the new state and whether a lockout occurred. -/
def handleFailedAttempt (now : Nat) (s : BState) : BState × Bool :=
  let newAttemptCount := s.authAttempts + 1
  let s1 := { s with authAttempts := newAttemptCount
                     store := { s.store with
                                failedBiometricAttempts := some newAttemptCount } }
  if MAX_FAILED_ATTEMPTS ≤ newAttemptCount then
    let endTime := now + LOCKOUT_DURATION
    ({ s1 with store := { s1.store with
                          biometricLockout :=
                            some { endTime := endTime
                                   attempts := newAttemptCount
                                   timestamp := now } }
               isLockedOut := true
               lockoutEndTime := endTime
               lockoutTimerArmed := true
               alert := some AlertKind.lockedOut }, true)
  else
    (s1, false)

/-- Entry of handleBiometricAuth up to the capability call: a no-op when
already authenticating or locked out; otherwise clears any pending
biometric timeout, marks authentication in flight, and arms a fresh
biometric-prompt timeout. -/
def startAuth (s : BState) : BState :=
  if s.isAuthenticating || s.isLockedOut then s
  else { s with isAuthenticating := true
                biometricTimeoutArmed := true }

/-- The biometric-prompt timeout callback armed inside
handleBiometricAuth: unconditionally drops the in-flight flag and shows
the timeout alert; it carries no token and performs no staleness
comparison. -/
def biometricTimeoutFire (s : BState) : BState :=
  { s with biometricTimeoutArmed := false
           isAuthenticating := false
           alert := some AlertKind.authTimeout }

/-- Continuation of handleBiometricAuth after TouchID.authenticate
resolves: clears the timeout, removes both ledger keys, persists
lastBiometricAuth = now and a fresh securityToken, and navigates to
Home. -/
def onAuthSuccess (now : Nat) (s : BState) : BState :=
  { s with biometricTimeoutArmed := false
           store := { s.store with failedBiometricAttempts := none
                                   biometricLockout := none
                                   lastBiometricAuth := some now
                                   securityToken := some now }
           nav := Screen.home }

/-- The error codes the catch handler of handleBiometricAuth
distinguishes; every code outside the five named ones falls into the
generic failed-attempt branch, represented by noMatch. -/
inductive ErrorCode where
  | userCancel
  | systemCancel
  | biometryNotEnrolled
  | biometryNotAvailable
  | biometryLockout
  | noMatch
deriving DecidableEq

/-- Result of a TouchID.authenticate call. -/
inductive Outcome where
  | success
  | failure (code : ErrorCode)
deriving DecidableEq

/-- The catch handler of handleBiometricAuth: always clears the timeout
and the in-flight flag; user or system cancellation only reveals the
fallback options; the three probe failures only show their alert; any
other failure is recorded through handleFailedAttempt and, when it does
not lock the account, shows the failure alert with the remaining
attempts computed from the captured count. -/
def onAuthError (now : Nat) (code : ErrorCode) (s : BState) : BState :=
  let s1 : BState := { s with biometricTimeoutArmed := false
                              isAuthenticating := false }
  match code with
  | ErrorCode.userCancel => { s1 with showFallbackOptions := true }
  | ErrorCode.systemCancel => { s1 with showFallbackOptions := true }
  | ErrorCode.biometryNotEnrolled => { s1 with alert := some AlertKind.notEnrolled }
  | ErrorCode.biometryNotAvailable => { s1 with alert := some AlertKind.notAvailable }
  | ErrorCode.biometryLockout => { s1 with alert := some AlertKind.osLockout }
  | ErrorCode.noMatch =>
      let r := handleFailedAttempt now s1
      if r.2 then r.1
      else
        let remaining := MAX_FAILED_ATTEMPTS - (s.authAttempts + 1)
        { r.1 with alert := some (AlertKind.authFailed remaining) }

/-- One full failed attempt: start the authentication and have the
capability report a non-probe failure. -/
def authCycleNoMatch (now : Nat) (s : BState) : BState :=
  onAuthError now ErrorCode.noMatch (startAuth s)

/-- A run of consecutive failed attempts, one per listed clock reading. -/
def applyFailures : List Nat → BState → BState
  | [], s => s
  | t :: ts, s => applyFailures ts (authCycleNoMatch t s)

/-- handleEmergencyAccess on confirmation: logs the emergency access,
persists biometricEnabled = false, and navigates to Home.  No ledger
key and no authentication key is touched. -/
def handleEmergencyAccess (now : Nat) (s : BState) : BState :=
  { s with store := { s.store with emergencyAccessLog := some now
                                   biometricEnabled := some false }
           nav := Screen.home }

/-- handleSignOut on confirmation: multiRemove of isLoggedIn,
lastBiometricAuth, failedBiometricAttempts, biometricLockout and
securityToken, then navigation to Login. -/
def handleSignOut (s : BState) : BState :=
  { s with store := { s.store with isLoggedIn := none
                                   lastBiometricAuth := none
                                   failedBiometricAttempts := none
                                   biometricLockout := none
                                   securityToken := none }
           nav := Screen.login }

/-- handleUsePassword: logs the fallback event and navigates to the
password login screen. -/
def handleUsePassword (now : Nat) (s : BState) : BState :=
  { s with store := { s.store with lastSecurityEvent := some now }
           nav := Screen.login }

/-- The events the component reacts to. -/
inductive Event where
  | startAuthEvent
  | authResult (outcome : Outcome)
  | sessionTimeoutFires
  | promptTimeoutFires
  | lockoutExpiryFires
  | backgrounded
deriving DecidableEq

/-- The total step function of the embedded engine: every event is
dispatched to the handler the source runs for it; no pair raises an
error. -/
def engineStep (now : Nat) (e : Event) (s : BState) : BState :=
  match e with
  | Event.startAuthEvent => startAuth s
  | Event.authResult Outcome.success => onAuthSuccess now s
  | Event.authResult (Outcome.failure c) => onAuthError now c s
  | Event.sessionTimeoutFires => sessionTimerFire s
  | Event.promptTimeoutFires => biometricTimeoutFire s
  | Event.lockoutExpiryFires => lockoutTimerFire s
  | Event.backgrounded => appBackground s

/-- The state reached when the prompt timeout fires while an
authentication is in flight: the component is back in Ready although
the capability call has not returned yet. -/
def readyAfterTimeoutState : BState :=
  biometricTimeoutFire (startAuth freshState)

/-- formatLockoutTime and getBiometricInstructions both display
Math.ceil((lockoutEndTime - now) / 1000 / 60), the two successive real
divisions of the source. -/
def formatLockoutMinutes (lockoutEndTime now : Nat) : Int :=
  Int.ceil ((((lockoutEndTime : ℚ) - (now : ℚ)) / 1000) / 60)

/-- The display formula as the spec words it: the ceiling of the
remaining time divided by one minute. -/
def specLockoutDisplay (endsAt now : Nat) : Int :=
  Int.ceil (((endsAt : ℚ) - (now : ℚ)) / 60000)

/-- C1: starting from failed_count = 0, every run of fewer than
MAX_FAILED_ATTEMPTS consecutive NoMatch failures leaves the engine in
Ready with remaining_attempts = MAX_FAILED_ATTEMPTS - count and no
lockout record, and the failure whose post-increment count reaches
MAX_FAILED_ATTEMPTS persists a lockout record with
endTime = now + LOCKOUT_DURATION and moves the engine to LockedOut. -/
theorem consecutive_no_match_failures (ts : List Nat) (now : Nat)
    (h : ts.length < MAX_FAILED_ATTEMPTS) :
    (phase (applyFailures ts freshState) = EnginePhase.ready ∧
      remainingAttempts (applyFailures ts freshState) =
        MAX_FAILED_ATTEMPTS - ts.length ∧
      (applyFailures ts freshState).store.biometricLockout = none) ∧
    (ts.length = MAX_FAILED_ATTEMPTS - 1 →
      phase (authCycleNoMatch now (applyFailures ts freshState)) =
        EnginePhase.lockedOut ∧
      (authCycleNoMatch now (applyFailures ts freshState)).store.biometricLockout =
        some { endTime := now + LOCKOUT_DURATION
               attempts := MAX_FAILED_ATTEMPTS
               timestamp := now }) := by
  match ts with
  | [] => exact ⟨⟨rfl, rfl, rfl⟩, fun h2 => by simp [MAX_FAILED_ATTEMPTS] at h2⟩
  | [a] => exact ⟨⟨rfl, rfl, rfl⟩, fun h2 => by simp [MAX_FAILED_ATTEMPTS] at h2⟩
  | [a, b] => exact ⟨⟨rfl, rfl, rfl⟩, fun _ => ⟨rfl, rfl⟩⟩
  | a :: b :: c :: rest =>
      simp [List.length_cons, MAX_FAILED_ATTEMPTS] at h
      omega

/-- Witness for C1 at the run of two failures followed by the locking
third failure at clock reading 7. -/
theorem consecutive_no_match_failures_witness :
    ([4, 5] : List Nat).length < MAX_FAILED_ATTEMPTS ∧
    ((phase (applyFailures [4, 5] freshState) = EnginePhase.ready ∧
      remainingAttempts (applyFailures [4, 5] freshState) =
        MAX_FAILED_ATTEMPTS - ([4, 5] : List Nat).length ∧
      (applyFailures [4, 5] freshState).store.biometricLockout = none) ∧
    (([4, 5] : List Nat).length = MAX_FAILED_ATTEMPTS - 1 →
      phase (authCycleNoMatch 7 (applyFailures [4, 5] freshState)) =
        EnginePhase.lockedOut ∧
      (authCycleNoMatch 7 (applyFailures [4, 5] freshState)).store.biometricLockout =
        some { endTime := 7 + LOCKOUT_DURATION
               attempts := MAX_FAILED_ATTEMPTS
               timestamp := 7 })) :=
  ⟨by decide, consecutive_no_match_failures [4, 5] 7 (by decide)⟩

/-- C2 counterexample: the session timer fires on a state whose store
holds lastBiometricAuth = 5; the flag flips and the alert is shown, but
the persisted last-authentication timestamp is not cleared, refuting
the claim that the transition invalidates it. -/
theorem session_timeout_keeps_last_auth_counterexample :
    (sessionTimerFire { freshState with
        sessionTimerArmed := true
        store := { emptyStore with lastBiometricAuth := some 5 } }).sessionExpired
      = true ∧
    ¬ (sessionTimerFire { freshState with
        sessionTimerArmed := true
        store := { emptyStore with lastBiometricAuth := some 5 } }).store.lastBiometricAuth
      = none := by decide

/-- C2 amended: when the session timeout fires the engine records the
session as expired and shows the re-authentication alert whose OK
button starts the next authentication, but the persistent store, and in
particular the lastBiometricAuth key, is left entirely unchanged. -/
theorem session_timeout_sets_expired_keeps_store (s : BState) :
    (sessionTimerFire s).sessionExpired = true ∧
    (sessionTimerFire s).alert = some AlertKind.sessionExpiredAlert ∧
    (sessionTimerFire s).store = s.store :=
  ⟨rfl, rfl, rfl⟩

/-- C3: on a stored lockout record with endTime 100 and attempts 3 the
still-active read at now = 50 reports the lockout with the stored end
time, and the expired read at now = 150 removes both persisted keys but
then writes the failed count read before the clearing back into
authAttempts, so the status after expiry carries 3 used attempts
instead of the 0 the ledger contract promises. -/
theorem expired_lockout_stale_attempts_eval :
    ((checkLockoutStatus 50 { freshState with
        store := { emptyStore with
                   biometricLockout := some { endTime := 100, attempts := 3, timestamp := 40 }
                   failedBiometricAttempts := some 3 } }).isLockedOut = true ∧
     (checkLockoutStatus 50 { freshState with
        store := { emptyStore with
                   biometricLockout := some { endTime := 100, attempts := 3, timestamp := 40 }
                   failedBiometricAttempts := some 3 } }).lockoutEndTime = 100) ∧
    ((checkLockoutStatus 150 { freshState with
        store := { emptyStore with
                   biometricLockout := some { endTime := 100, attempts := 3, timestamp := 40 }
                   failedBiometricAttempts := some 3 } }).store.biometricLockout = none ∧
     (checkLockoutStatus 150 { freshState with
        store := { emptyStore with
                   biometricLockout := some { endTime := 100, attempts := 3, timestamp := 40 }
                   failedBiometricAttempts := some 3 } }).store.failedBiometricAttempts = none ∧
     (checkLockoutStatus 150 { freshState with
        store := { emptyStore with
                   biometricLockout := some { endTime := 100, attempts := 3, timestamp := 40 }
                   failedBiometricAttempts := some 3 } }).isLockedOut = false ∧
     (checkLockoutStatus 150 { freshState with
        store := { emptyStore with
                   biometricLockout := some { endTime := 100, attempts := 3, timestamp := 40 }
                   failedBiometricAttempts := some 3 } }).authAttempts = 3) := by decide

/-- C4 counterexample: with the Home screen mounted (the phase after a
successful authentication) and lastBiometricAuth = 10 persisted,
processing the Backgrounded signal leaves the timestamp in place,
refuting the claim that backgrounding clears it in every phase. -/
theorem backgrounding_on_home_keeps_last_auth :
    (appBackground { freshState with
        nav := Screen.home
        store := { emptyStore with lastBiometricAuth := some 10 } }).store.lastBiometricAuth
      = some 10 ∧
    ¬ (appBackground { freshState with
        nav := Screen.home
        store := { emptyStore with lastBiometricAuth := some 10 } }).store.lastBiometricAuth
      = none := by decide

/-- C4 amended: while the biometric screen is mounted, the Backgrounded
or Inactive signal clears the persisted lastBiometricAuth key, disarms
all three timers, leaves the phase unchanged and touches no ledger
key. -/
theorem background_clears_session_on_biometric_screen (s : BState) :
    (handleAppBackground s).store.lastBiometricAuth = none ∧
    (handleAppBackground s).sessionTimerArmed = false ∧
    (handleAppBackground s).lockoutTimerArmed = false ∧
    (handleAppBackground s).biometricTimeoutArmed = false ∧
    phase (handleAppBackground s) = phase s ∧
    (handleAppBackground s).store.failedBiometricAttempts =
      s.store.failedBiometricAttempts ∧
    (handleAppBackground s).store.biometricLockout = s.store.biometricLockout :=
  ⟨rfl, rfl, rfl, rfl, rfl, rfl, rfl⟩

/-- C5: a biometric prompt timeout fires while the capability call is
still pending, returning the engine to Ready; the superseded call then
rejects with a NoMatch failure and its completion handler, which
carries no generation token, still mutates the engine state: the failed
count rises from 0 to 1 in memory and in the store, so the stale
completion is not a no-op. -/
theorem stale_auth_result_mutates_state :
    phase (startAuth freshState) = EnginePhase.authenticating ∧
    phase (biometricTimeoutFire (startAuth freshState)) = EnginePhase.ready ∧
    (onAuthError 9 ErrorCode.noMatch
        (biometricTimeoutFire (startAuth freshState))).authAttempts = 1 ∧
    (onAuthError 9 ErrorCode.noMatch
        (biometricTimeoutFire (startAuth freshState))).store.failedBiometricAttempts
      = some 1 ∧
    ¬ onAuthError 9 ErrorCode.noMatch (biometricTimeoutFire (startAuth freshState))
      = biometricTimeoutFire (startAuth freshState) := by decide

/-- C6: while a lockout is active the displayed countdown of
formatLockoutTime equals the ceiling of the remaining time divided by
one minute and is never below 1. -/
theorem lockout_countdown_ceiling (endsAt now : Nat) (h : now < endsAt) :
    formatLockoutMinutes endsAt now = specLockoutDisplay endsAt now ∧
    1 ≤ formatLockoutMinutes endsAt now := by
  have hx : (0 : ℚ) < (endsAt : ℚ) - (now : ℚ) := by
    have : (now : ℚ) < (endsAt : ℚ) := by exact_mod_cast h
    linarith
  constructor
  · unfold formatLockoutMinutes specLockoutDisplay
    rw [div_div]
    norm_num
  · unfold formatLockoutMinutes
    have hpos : (0 : ℚ) < ((endsAt : ℚ) - (now : ℚ)) / 1000 / 60 := by positivity
    have := Int.ceil_pos.mpr hpos
    omega

/-- Witness for C6 one millisecond into a one-minute lockout. -/
theorem lockout_countdown_ceiling_witness :
    1 < 60000 ∧
    (formatLockoutMinutes 60000 1 = specLockoutDisplay 60000 1 ∧
      1 ≤ formatLockoutMinutes 60000 1) :=
  ⟨by norm_num, lockout_countdown_ceiling 60000 1 (by norm_num)⟩

/-- C7: while authenticating and not locked out, a capability failure
with a probe reason (not enrolled, hardware unavailable, locked by the
operating system) ends the in-flight attempt, offers the password
fallback and mutates neither the failed count nor the lockout record;
a cancellation returns the engine to Ready, likewise without any ledger
mutation. -/
theorem probe_failures_no_ledger_mutation (s : BState) (now : Nat) (code : ErrorCode)
    (_hauth : s.isAuthenticating = true) (hlock : s.isLockedOut = false) :
    ((code = ErrorCode.biometryNotEnrolled ∨ code = ErrorCode.biometryNotAvailable ∨
        code = ErrorCode.biometryLockout) →
      (onAuthError now code s).store.failedBiometricAttempts =
        s.store.failedBiometricAttempts ∧
      (onAuthError now code s).store.biometricLockout = s.store.biometricLockout ∧
      (onAuthError now code s).authAttempts = s.authAttempts ∧
      fallbackRequested (onAuthError now code s) = true ∧
      (onAuthError now code s).isAuthenticating = false) ∧
    ((code = ErrorCode.userCancel ∨ code = ErrorCode.systemCancel) →
      phase (onAuthError now code s) = EnginePhase.ready ∧
      (onAuthError now code s).store.failedBiometricAttempts =
        s.store.failedBiometricAttempts ∧
      (onAuthError now code s).store.biometricLockout = s.store.biometricLockout ∧
      (onAuthError now code s).authAttempts = s.authAttempts) := by
  constructor
  · rintro (rfl | rfl | rfl) <;> exact ⟨rfl, rfl, rfl, rfl, rfl⟩
  · rintro (rfl | rfl) <;>
      exact ⟨by simp [onAuthError, phase, hlock], rfl, rfl, rfl⟩

/-- Witness for C7 on a fresh authenticating state receiving the
not-enrolled probe failure. -/
theorem probe_failures_no_ledger_mutation_witness :
    ({ freshState with isAuthenticating := true } : BState).isAuthenticating = true ∧
    ({ freshState with isAuthenticating := true } : BState).isLockedOut = false ∧
    (((ErrorCode.biometryNotEnrolled = ErrorCode.biometryNotEnrolled ∨
        ErrorCode.biometryNotEnrolled = ErrorCode.biometryNotAvailable ∨
        ErrorCode.biometryNotEnrolled = ErrorCode.biometryLockout) →
      (onAuthError 3 ErrorCode.biometryNotEnrolled
          { freshState with isAuthenticating := true }).store.failedBiometricAttempts =
        ({ freshState with isAuthenticating := true } : BState).store.failedBiometricAttempts ∧
      (onAuthError 3 ErrorCode.biometryNotEnrolled
          { freshState with isAuthenticating := true }).store.biometricLockout =
        ({ freshState with isAuthenticating := true } : BState).store.biometricLockout ∧
      (onAuthError 3 ErrorCode.biometryNotEnrolled
          { freshState with isAuthenticating := true }).authAttempts =
        ({ freshState with isAuthenticating := true } : BState).authAttempts ∧
      fallbackRequested (onAuthError 3 ErrorCode.biometryNotEnrolled
          { freshState with isAuthenticating := true }) = true ∧
      (onAuthError 3 ErrorCode.biometryNotEnrolled
          { freshState with isAuthenticating := true }).isAuthenticating = false) ∧
    ((ErrorCode.biometryNotEnrolled = ErrorCode.userCancel ∨
        ErrorCode.biometryNotEnrolled = ErrorCode.systemCancel) →
      phase (onAuthError 3 ErrorCode.biometryNotEnrolled
          { freshState with isAuthenticating := true }) = EnginePhase.ready ∧
      (onAuthError 3 ErrorCode.biometryNotEnrolled
          { freshState with isAuthenticating := true }).store.failedBiometricAttempts =
        ({ freshState with isAuthenticating := true } : BState).store.failedBiometricAttempts ∧
      (onAuthError 3 ErrorCode.biometryNotEnrolled
          { freshState with isAuthenticating := true }).store.biometricLockout =
        ({ freshState with isAuthenticating := true } : BState).store.biometricLockout ∧
      (onAuthError 3 ErrorCode.biometryNotEnrolled
          { freshState with isAuthenticating := true }).authAttempts =
        ({ freshState with isAuthenticating := true } : BState).authAttempts)) :=
  ⟨rfl, rfl,
    probe_failures_no_ledger_mutation { freshState with isAuthenticating := true }
      3 ErrorCode.biometryNotEnrolled rfl rfl⟩

/-- C8 counterexample: the pair of phase Ready with a capability failure
result is not a row of the transition table, yet processing it is not a
no-op: in the state reached when the prompt timeout fires during an
in-flight call, the late NoMatch result changes the engine state. -/
theorem unlisted_pair_not_noop :
    phase readyAfterTimeoutState = EnginePhase.ready ∧
    ¬ engineStep 9 (Event.authResult (Outcome.failure ErrorCode.noMatch))
        readyAfterTimeoutState
      = readyAfterTimeoutState := by decide

/-- C8 amended: the step function is total and start_auth received
while Authenticating or while LockedOut is ignored with the state
unchanged and no error; but not every unlisted pair is a no-op, since a
capability failure delivered outside Authenticating still mutates the
ledger. -/
theorem start_auth_ignored_when_busy (now : Nat) (s : BState)
    (h : s.isAuthenticating = true ∨ s.isLockedOut = true) :
    engineStep now Event.startAuthEvent s = s := by
  rcases h with h | h <;> simp [engineStep, startAuth, h]

/-- Witness for the amended C8 on a state with an authentication in
flight. -/
theorem start_auth_ignored_when_busy_witness :
    (({ freshState with isAuthenticating := true } : BState).isAuthenticating = true ∨
      ({ freshState with isAuthenticating := true } : BState).isLockedOut = true) ∧
    engineStep 0 Event.startAuthEvent { freshState with isAuthenticating := true }
      = { freshState with isAuthenticating := true } :=
  ⟨Or.inl rfl,
    start_auth_ignored_when_busy 0 { freshState with isAuthenticating := true }
      (Or.inl rfl)⟩

/-- C9: with at least two failed attempts and no active lockout the
Emergency Access button is offered, and confirming it persists
biometricEnabled = false and navigates to Home while the failed count,
the lockout record, the last-authentication timestamp and the security
token are all left untouched: the gate is bypassed one failure before
lockout with no successful authentication. -/
theorem emergency_access_bypass (s : BState) (now : Nat)
    (h2 : 2 ≤ s.authAttempts) (hl : s.isLockedOut = false) :
    emergencyAccessOffered s = true ∧
    (handleEmergencyAccess now s).store.biometricEnabled = some false ∧
    (handleEmergencyAccess now s).nav = Screen.home ∧
    (handleEmergencyAccess now s).store.failedBiometricAttempts =
      s.store.failedBiometricAttempts ∧
    (handleEmergencyAccess now s).store.biometricLockout = s.store.biometricLockout ∧
    (handleEmergencyAccess now s).store.lastBiometricAuth =
      s.store.lastBiometricAuth ∧
    (handleEmergencyAccess now s).store.securityToken = s.store.securityToken := by
  refine ⟨?_, rfl, rfl, rfl, rfl, rfl, rfl⟩
  simp [emergencyAccessOffered, hl, h2]

/-- Witness for C9 on a state with exactly two failed attempts, the
last one before the lockout threshold. -/
theorem emergency_access_bypass_witness :
    2 ≤ ({ freshState with authAttempts := 2 } : BState).authAttempts ∧
    ({ freshState with authAttempts := 2 } : BState).isLockedOut = false ∧
    (emergencyAccessOffered { freshState with authAttempts := 2 } = true ∧
    (handleEmergencyAccess 11 { freshState with authAttempts := 2 }).store.biometricEnabled
      = some false ∧
    (handleEmergencyAccess 11 { freshState with authAttempts := 2 }).nav = Screen.home ∧
    (handleEmergencyAccess 11 { freshState with authAttempts := 2 }).store.failedBiometricAttempts
      = ({ freshState with authAttempts := 2 } : BState).store.failedBiometricAttempts ∧
    (handleEmergencyAccess 11 { freshState with authAttempts := 2 }).store.biometricLockout
      = ({ freshState with authAttempts := 2 } : BState).store.biometricLockout ∧
    (handleEmergencyAccess 11 { freshState with authAttempts := 2 }).store.lastBiometricAuth
      = ({ freshState with authAttempts := 2 } : BState).store.lastBiometricAuth ∧
    (handleEmergencyAccess 11 { freshState with authAttempts := 2 }).store.securityToken
      = ({ freshState with authAttempts := 2 } : BState).store.securityToken) :=
  ⟨by decide, rfl,
    emergency_access_bypass { freshState with authAttempts := 2 } 11 (by decide) rfl⟩

/-- C10: confirming sign-out removes the failed count, the lockout
record, isLoggedIn, lastBiometricAuth and securityToken, navigates to
the login screen, and a subsequent mount of the biometric gate checking
the lockout status at any clock reading finds no lockout and zero
failed attempts. -/
theorem sign_out_clears_security_state (s : BState) (now : Nat) :
    (handleSignOut s).store.isLoggedIn = none ∧
    (handleSignOut s).store.lastBiometricAuth = none ∧
    (handleSignOut s).store.failedBiometricAttempts = none ∧
    (handleSignOut s).store.biometricLockout = none ∧
    (handleSignOut s).store.securityToken = none ∧
    (handleSignOut s).nav = Screen.login ∧
    (checkLockoutStatus now
        { freshState with store := (handleSignOut s).store }).isLockedOut = false ∧
    (checkLockoutStatus now
        { freshState with store := (handleSignOut s).store }).authAttempts = 0 :=
  ⟨rfl, rfl, rfl, rfl, rfl, rfl, rfl, rfl⟩

end Biometric
